import Mathlib

/-!
Verification of `scripts/generate_chart.py`.

The script has three components used in sequence: a pure data synthesizer
(`generate_sample_data`), a chart renderer (`create_line_chart`), and a JSON
exporter (`save_data_as_json`), orchestrated by `main`.  The pure parts are
embedded as Lean functions; the effectful parts (directory creation, file
writes) are embedded as explicit state transitions over a filesystem model
together with a failure oracle for the primitive I/O operations.
-/

/-! ## Calendar arithmetic for 2024

The script uses `datetime(2024, 1, 1) + timedelta(weeks=week)` and formats it
with `strftime("%Y-W%U")` and `isoformat()`.  2024-01-01 is a Monday; 2024 is
a leap year.  We model a date as its day offset from 2024-01-01. -/

/-- Month lengths of the (leap) year 2024. -/
def monthLengths2024 : List Nat := [31, 29, 31, 30, 31, 30, 31, 31, 30, 31, 30, 31]

/-- Convert a 0-based day offset within 2024 into a (month, day) pair,
both 1-based, by walking the month-length table. -/
def monthDayAux : List Nat → Nat → Nat → Nat × Nat
  | [], m, d => (m, d + 1)
  | ml :: rest, m, d => if d < ml then (m, d + 1) else monthDayAux rest (m + 1) (d - ml)

/-- Month and day (1-based) of the date `2024-01-01 + d days`. -/
def monthDay (d : Nat) : Nat × Nat := monthDayAux monthLengths2024 1 d

/-- Two-digit zero-padded decimal rendering, as `strftime` and `isoformat` use
for months, days and `%U` week numbers. -/
def twoDigit (n : Nat) : String := (if n < 10 then "0" else "") ++ toString n

/-- Python `strftime("%U")` week number for the date `2024-01-01 + d days`:
week of the year with Sunday as first day, days before the first Sunday being
week 0.  2024-01-01 is a Monday, so its Sunday-based weekday is 1. -/
def weekU (d : Nat) : Nat := (d + 7 - (1 + d) % 7) / 7

/-- The `strftime("%Y-W%U")` label of `2024-01-01 + 7*w days`. -/
def weekLabel (w : Nat) : String := "2024-W" ++ twoDigit (weekU (7 * w))

/-- The `isoformat()` rendering of the datetime `2024-01-01 + d days`
(midnight, so no fractional part: `YYYY-MM-DDT00:00:00`). -/
def isoOfOffset (d : Nat) : String :=
  "2024-" ++ twoDigit (monthDay d).1 ++ "-" ++ twoDigit (monthDay d).2 ++ "T00:00:00"

/-- The `isoformat()` date string of week `w`: `2024-01-01 + w weeks`. -/
def isoDate (w : Nat) : String := isoOfOffset (7 * w)

/-! ## The data synthesizer (`generate_sample_data`) -/

/-- One entry of the `individuals` table: a name and a display color. -/
structure Individual where
  name : String
  color : String
deriving DecidableEq, Repr

instance : Inhabited Individual := ⟨⟨"", ""⟩⟩

/-- The fixed `individuals` table of `generate_sample_data` (lines 16-22). -/
def individuals : List Individual :=
  [⟨"Alice", "#FF6B6B"⟩, ⟨"Bob", "#4ECDC4"⟩, ⟨"Charlie", "#45B7D1"⟩,
   ⟨"Diana", "#FFA726"⟩, ⟨"Eve", "#AB47BC"⟩]

/-- One record appended by `generate_sample_data`: the dict with keys
`individual`, `color`, `week`, `date`, `cumulative_points` (lines 44-50). -/
structure Record where
  individual : String
  color : String
  week : String
  date : String
  cumulative_points : Int
deriving DecidableEq, Repr

instance : Inhabited Record := ⟨⟨"", "", "", "", 0⟩⟩

/-- Per-week point increment chosen by the `if/elif/else` chain on the
individual's name (lines 33-42).  Python `%` on non-negative ints is `Nat.mod`. -/
def increment (name : String) (week : Nat) : Int :=
  if name = "Alice" then (15 + week * 2 + week % 3 * 5 : Nat)
  else if name = "Bob" then (12 + week * 3 + week % 2 * 3 : Nat)
  else if name = "Charlie" then (18 + week * 1 + week % 4 * 7 : Nat)
  else if name = "Diana" then (10 + week * 4 + week % 5 * 2 : Nat)
  else (20 + week * 2 + week % 3 * 4 : Nat)

/-- The record built for one individual at one week with the updated running
total (lines 44-50): `week_date = start_date + timedelta(weeks=week)`. -/
def mkRecord (ind : Individual) (week : Nat) (points : Int) : Record :=
  { individual := ind.name, color := ind.color, week := weekLabel week,
    date := isoDate week, cumulative_points := points }

/-- The inner `for week in range(12)` loop, carrying the running total
`points`; `week` is the current week index and the last argument the number of
weeks still to do. -/
def weeksLoop (ind : Individual) : Nat → Int → Nat → List Record
  | _, _, 0 => []
  | week, points, k + 1 =>
      let points2 := points + increment ind.name week
      mkRecord ind week points2 :: weeksLoop ind (week + 1) points2 k

/-- All 12 records of one individual, weeks 0..11, running total starting at 0
(lines 28-50). -/
def personRecords (ind : Individual) : List Record := weeksLoop ind 0 0 12

/-- The synthesizer `generate_sample_data` (lines 14-52): the concatenation of
every individual's 12 records, in table order. -/
def generate_sample_data : List Record := (individuals.map personRecords).flatten

example : generate_sample_data.length = 60 := by decide

example : (generate_sample_data.getD 1 default).cumulative_points = 37 := by decide

example : (generate_sample_data.getD 0 default).week = "2024-W00" := by rfl

example : (generate_sample_data.getD 13 default).date = "2024-01-08T00:00:00" := by rfl

/-! ## The JSON exporter (`save_data_as_json`)

`save_data_as_json` writes `json.dump(data, f, indent=2)`.  We embed the exact
text `json.dump` produces for a list of flat string/int dicts: two-space
indentation, `": "` between key and value, `",\n"` between items, insertion
key order preserved, and the standard string escapes. -/

/-- JSON escaping of one character, as the `json` module performs it for the
characters that can occur here (quote, backslash and common control chars). -/
def escChar (c : Char) : List Char :=
  if c = '"' then ['\\', '"']
  else if c = '\\' then ['\\', '\\']
  else if c = '\n' then ['\\', 'n']
  else if c = '\t' then ['\\', 't']
  else if c = '\r' then ['\\', 'r']
  else if c = '\x08' then ['\\', 'b']
  else if c = '\x0c' then ['\\', 'f']
  else [c]

/-- JSON string-body escaping. -/
def escapeString (s : String) : String := String.mk (s.data.flatMap escChar)

/-- A JSON string literal. -/
def serStr (s : String) : String := "\"" ++ escapeString s ++ "\""

/-- A run of `n` spaces (the `indent=2` padding). -/
def spaces (n : Nat) : String := String.mk (List.replicate n ' ')

/-- The `json.dump(..., indent=2)` text of one record dict at indent `ind`:
keys in insertion order `individual`, `color`, `week`, `date`,
`cumulative_points` (lines 44-50 build the dict in that order). -/
def serRecord (ind : Nat) (r : Record) : String :=
  spaces ind ++ "\x7b\n" ++
  spaces (ind + 2) ++ "\"individual\": " ++ serStr r.individual ++ ",\n" ++
  spaces (ind + 2) ++ "\"color\": " ++ serStr r.color ++ ",\n" ++
  spaces (ind + 2) ++ "\"week\": " ++ serStr r.week ++ ",\n" ++
  spaces (ind + 2) ++ "\"date\": " ++ serStr r.date ++ ",\n" ++
  spaces (ind + 2) ++ "\"cumulative_points\": " ++ toString r.cumulative_points ++ "\n" ++
  spaces ind ++ "\x7d"

/-- Interpose a separator between list elements. -/
def joinSep (sep : String) : List String → String
  | [] => ""
  | [s] => s
  | s :: rest => s ++ sep ++ joinSep sep rest

/-- The full `json.dump(data, f, indent=2)` text for a record list: a JSON
array with items at indent 2 separated by `",\n"`; the empty list prints as
`[]`. -/
def serRecords (rs : List Record) : String :=
  match rs with
  | [] => "[]"
  | _ => "[\n" ++ joinSep ",\n" (rs.map (serRecord 2)) ++ "\n]"

/-! ## A JSON reader

To state the round-trip property we re-parse the exported text with a small
JSON parser (objects, arrays, strings with the escapes above, integers,
booleans, null — floats and `\u` escapes never occur in this program's
output).  The parser is fuelled so that it is structurally recursive and
kernel-evaluable. -/

/-- Parsed JSON values. -/
inductive Json where
  | null : Json
  | bool : Bool → Json
  | str : String → Json
  | int : Int → Json
  | arr : List Json → Json
  | obj : List (String × Json) → Json

/-- Drop leading JSON whitespace. -/
def skipWs : List Char → List Char
  | [] => []
  | c :: cs => if c = ' ' || c = '\n' || c = '\t' || c = '\r' then skipWs cs else c :: cs

/-- Decode one escape character after a backslash. -/
def unescChar (c : Char) : Option Char :=
  if c = '"' then some '"'
  else if c = '\\' then some '\\'
  else if c = '/' then some '/'
  else if c = 'n' then some '\n'
  else if c = 't' then some '\t'
  else if c = 'r' then some '\r'
  else if c = 'b' then some '\x08'
  else if c = 'f' then some '\x0c'
  else none

/-- Parse a string body up to the closing quote, returning the decoded
characters and the rest of the input. -/
def parseStringBody : List Char → Option (List Char × List Char)
  | [] => none
  | '"' :: rest => some ([], rest)
  | '\\' :: c :: rest =>
      match unescChar c, parseStringBody rest with
      | some u, some (s, r) => some (u :: s, r)
      | _, _ => none
  | c :: rest =>
      match parseStringBody rest with
      | some (s, r) => some (c :: s, r)
      | none => none

/-- Accumulate decimal digits. -/
def parseDigitsAux : List Char → Nat → Nat × List Char
  | [], acc => (acc, [])
  | c :: cs, acc =>
      if c.isDigit then parseDigitsAux cs (acc * 10 + (c.toNat - '0'.toNat)) else (acc, c :: cs)

/-- Parse a non-empty digit run as a natural number. -/
def parseNatNum : List Char → Option (Nat × List Char)
  | [] => none
  | c :: cs => if c.isDigit then some (parseDigitsAux cs (c.toNat - '0'.toNat)) else none

/-- What the fuelled parser is currently parsing. -/
inductive PMode where
  | value : PMode
  | arrItems : PMode
  | objFields : PMode

/-- Result of one fuelled parser call, matching its mode. -/
inductive PRes where
  | val : Json → PRes
  | items : List Json → PRes
  | fields : List (String × Json) → PRes

/-- The fuelled JSON parser.  In `value` mode it parses one JSON value; in
`arrItems` mode the remaining comma-separated items of an array up to `]`; in
`objFields` mode the remaining key-value pairs of an object up to the closing
brace. -/
def parseF : Nat → PMode → List Char → Option (PRes × List Char)
  | 0, _, _ => none
  | fuel + 1, PMode.value, input =>
      match skipWs input with
      | '"' :: rest =>
          (parseStringBody rest).map (fun p => (PRes.val (Json.str (String.mk p.1)), p.2))
      | '[' :: rest =>
          (match skipWs rest with
           | ']' :: r => some (PRes.val (Json.arr []), r)
           | r2 =>
              match parseF fuel PMode.arrItems r2 with
              | some (PRes.items js, r) => some (PRes.val (Json.arr js), r)
              | _ => none)
      | '\x7b' :: rest =>
          (match skipWs rest with
           | '\x7d' :: r => some (PRes.val (Json.obj []), r)
           | r2 =>
              match parseF fuel PMode.objFields r2 with
              | some (PRes.fields kvs, r) => some (PRes.val (Json.obj kvs), r)
              | _ => none)
      | 't' :: 'r' :: 'u' :: 'e' :: r => some (PRes.val (Json.bool true), r)
      | 'f' :: 'a' :: 'l' :: 's' :: 'e' :: r => some (PRes.val (Json.bool false), r)
      | 'n' :: 'u' :: 'l' :: 'l' :: r => some (PRes.val Json.null, r)
      | '-' :: rest =>
          (parseNatNum rest).map (fun p => (PRes.val (Json.int (-(p.1 : Int))), p.2))
      | cs => (parseNatNum cs).map (fun p => (PRes.val (Json.int (p.1 : Int)), p.2))
  | fuel + 1, PMode.arrItems, input =>
      match parseF fuel PMode.value input with
      | some (PRes.val j, r) =>
          (match skipWs r with
           | ',' :: r2 =>
              (match parseF fuel PMode.arrItems r2 with
               | some (PRes.items js, r3) => some (PRes.items (j :: js), r3)
               | _ => none)
           | ']' :: r2 => some (PRes.items [j], r2)
           | _ => none)
      | _ => none
  | fuel + 1, PMode.objFields, input =>
      match skipWs input with
      | '"' :: rest =>
          (match parseStringBody rest with
           | some (k, r) =>
              (match skipWs r with
               | ':' :: r2 =>
                  (match parseF fuel PMode.value r2 with
                   | some (PRes.val v, r3) =>
                      (match skipWs r3 with
                       | ',' :: r4 =>
                          (match parseF fuel PMode.objFields r4 with
                           | some (PRes.fields kvs, r5) =>
                              some (PRes.fields ((String.mk k, v) :: kvs), r5)
                           | _ => none)
                       | '\x7d' :: r4 => some (PRes.fields [(String.mk k, v)], r4)
                       | _ => none)
                   | _ => none)
               | _ => none)
           | none => none)
      | _ => none

/-- Parse a complete JSON document: one value followed only by whitespace.
Any fuel bound that exceeds the number of parser steps works; each step either
descends into a subterm or consumes an item, so one million covers every text
this development evaluates (the 60-record export is under ten thousand
characters). -/
def parseJsonText (s : String) : Option Json :=
  match parseF 1000000 PMode.value s.data with
  | some (PRes.val j, rest) =>
      match skipWs rest with
      | [] => some j
      | _ => none
  | _ => none

/-- Read one record back from a parsed JSON object: exactly the five keys, in
the order the exporter writes them, strings for the first four and an integer
for `cumulative_points`. -/
def decodeRecord : Json → Option Record
  | Json.obj [("individual", Json.str n), ("color", Json.str c), ("week", Json.str w),
              ("date", Json.str d), ("cumulative_points", Json.int p)] =>
      some ⟨n, c, w, d, p⟩
  | _ => none

/-- Read a record list back from a parsed JSON array. -/
def decodeRecords : Json → Option (List Record)
  | Json.arr js => js.mapM decodeRecord
  | _ => none

/-- Re-parse exported text into the record sequence it encodes. -/
def parseRecords (s : String) : Option (List Record) :=
  (parseJsonText s).bind decodeRecords

/-! ## Shape predicates for the exported records -/

/-- The JSON object the exporter writes for one record: the five keys in dict
insertion order, strings for the first four values, an integer for the last. -/
def recordToJson (r : Record) : Json :=
  Json.obj [("individual", Json.str r.individual), ("color", Json.str r.color),
            ("week", Json.str r.week), ("date", Json.str r.date),
            ("cumulative_points", Json.int r.cumulative_points)]

/-- Key list of a JSON object. -/
def jsonKeys : Json → List String
  | Json.obj kvs => kvs.map (fun kv => kv.1)
  | _ => []

/-- Week labels have the `YYYY-Www` shape: four digits, a dash, a capital W,
two digits. -/
def weekFormatOk (s : String) : Bool :=
  match s.data with
  | [y1, y2, y3, y4, '-', 'W', w1, w2] =>
      y1.isDigit && y2.isDigit && y3.isDigit && y4.isDigit && w1.isDigit && w2.isDigit
  | _ => false

/-- Hexadecimal digit. -/
def isHexDigit (c : Char) : Bool :=
  c.isDigit || ('A' ≤ c && c ≤ 'F') || ('a' ≤ c && c ≤ 'f')

/-- Hex color strings: `#` followed by six hex digits. -/
def hexColorOk (s : String) : Bool :=
  match s.data with
  | '#' :: rest => rest.length == 6 && rest.all isHexDigit
  | _ => false

/-! ## The chart renderer (`create_line_chart`) and the effect model

The renderer's pure part is the grouping loop (lines 59-70) and the chart it
assembles (series, axis labels, title, grid, legend; lines 72-95); its side
effect is `plt.savefig(output_path, ...)` (lines 98-99), which writes the
image file and raises `FileNotFoundError` when the output path's directory
does not exist — it does not create directories.  Effects are modelled as
transitions on a filesystem `FS`, with an `Env` oracle saying which primitive
operations fail with an I/O error (disk full, permissions, ...); a failing
step returns the error and leaves the state as it was. -/

/-- The per-individual entry of the `individuals_data` grouping dict: date
list, point list and the color taken from the first record seen. -/
structure PersonData where
  dates : List String
  points : List Int
  color : String
deriving DecidableEq

/-- One step of the grouping loop (lines 61-70): first occurrence of a name
creates its entry, later records append to its date and point lists; dict
insertion order is first-seen order. -/
def updateGroup : List (String × PersonData) → Record → List (String × PersonData)
  | [], r => [(r.individual, ⟨[r.date], [r.cumulative_points], r.color⟩)]
  | (n, pd) :: rest, r =>
      if n = r.individual then
        (n, ⟨pd.dates ++ [r.date], pd.points ++ [r.cumulative_points], pd.color⟩) :: rest
      else (n, pd) :: updateGroup rest r

/-- The grouping loop over the whole record sequence. -/
def groupData (data : List Record) : List (String × PersonData) :=
  data.foldl updateGroup []

/-- The figure `create_line_chart` assembles before saving: one plotted series
per grouped individual, the fixed title and axis labels, the grid, and a
legend entry per plotted series. -/
structure Chart where
  series : List (String × PersonData)
  title : String
  xlabel : String
  ylabel : String
  grid : Bool
  legend : List String
deriving DecidableEq

/-- The chart built from a record sequence (lines 59-95). -/
def mkChart (data : List Record) : Chart :=
  { series := groupData data, title := "Individual Point Tracking Over Time",
    xlabel := "Time (Weeks)", ylabel := "Cumulative Points", grid := true,
    legend := (groupData data).map (fun g => g.1) }

/-- Contents a run can write: a rendered chart image or a text file. -/
inductive FileContent where
  | image : Chart → FileContent
  | text : String → FileContent
deriving DecidableEq

/-- Filesystem model: the directories that exist and the files written
(newest first; a later write at the same path shadows an earlier one). -/
structure FS where
  dirs : List String
  files : List (String × FileContent)
deriving DecidableEq

/-- The three primitive effectful operations of the script. -/
inductive OpKind where
  | makedirs : OpKind
  | savefig : OpKind
  | writeFile : OpKind
deriving DecidableEq

/-- Failure oracle: which primitive operations fail with an I/O error. -/
structure Env where
  fails : OpKind → Bool

/-- Result of an effectful step: an error message if it aborted, and the
filesystem state reached. -/
def StepRes := Option String × FS

/-- String membership in a directory list. -/
def memStr (d : String) : List String → Bool
  | [] => false
  | x :: rest => if x = d then true else memStr d rest

/-- Directory part of a path: everything before the last `/`; a bare filename
has the current directory (modelled as `""`, which always exists) as parent. -/
def parentDir (p : String) : String :=
  match p.data.reverse.dropWhile (fun c => c ≠ '/') with
  | [] => ""
  | _ :: rest => String.mk rest.reverse

/-- Whether a directory exists in the filesystem model. -/
def dirExists (fs : FS) (d : String) : Bool := d = "" || memStr d fs.dirs

/-- Record a file write. -/
def writeF (fs : FS) (p : String) (c : FileContent) : FS :=
  { dirs := fs.dirs, files := (p, c) :: fs.files }

/-- Look up the current content of a path. -/
def findFile : List (String × FileContent) → String → Option FileContent
  | [], _ => none
  | (q, c) :: rest, p => if q = p then some c else findFile rest p

/-- Look up a file in the filesystem model. -/
def lookupFile (fs : FS) (p : String) : Option FileContent := findFile fs.files p

/-- Model of `os.makedirs(d, exist_ok=True)` (line 119): creates the directory
if it is missing, succeeds if it already exists, fails only with an I/O
error. -/
def makedirs (env : Env) (d : String) (fs : FS) : StepRes :=
  if env.fails OpKind.makedirs then (some "makedirs: OSError", fs)
  else (none, { dirs := if memStr d fs.dirs then fs.dirs else d :: fs.dirs,
                files := fs.files })

/-- Model of `plt.savefig(output_path, ...)` (lines 98-99): writes the figure
if the output path's directory exists, raises `FileNotFoundError` if it does
not, and never creates directories. -/
def savefig (env : Env) (path : String) (chart : Chart) (fs : FS) : StepRes :=
  if env.fails OpKind.savefig then (some "savefig: OSError", fs)
  else if dirExists fs (parentDir path) then
    (none, writeF fs path (FileContent.image chart))
  else (some "savefig: FileNotFoundError", fs)

/-- The renderer `create_line_chart` (lines 54-102): group, assemble the
chart, save it to `output_path`. -/
def create_line_chart (env : Env) (data : List Record) (output_path : String)
    (fs : FS) : StepRes :=
  savefig env output_path (mkChart data) fs

/-- Model of `open(output_path, 'w')` plus `json.dump` (lines 106-107): writes
the text if the directory exists, raises `FileNotFoundError` if it does not. -/
def openWrite (env : Env) (path : String) (content : String) (fs : FS) : StepRes :=
  if env.fails OpKind.writeFile then (some "open: OSError", fs)
  else if dirExists fs (parentDir path) then
    (none, writeF fs path (FileContent.text content))
  else (some "open: FileNotFoundError", fs)

/-- The exporter `save_data_as_json` (lines 104-108): serialize with
`json.dump(data, f, indent=2)` and write. -/
def save_data_as_json (env : Env) (data : List Record) (output_path : String)
    (fs : FS) : StepRes :=
  openWrite env output_path (serRecords data) fs

/-- Sequencing with no error handling: a raised error aborts the run and the
following steps never execute. -/
def andThen (r : StepRes) (f : FS → StepRes) : StepRes :=
  match r with
  | (some e, fs) => (some e, fs)
  | (none, fs) => f fs

/-- The image path `main` uses (line 122). -/
def chartPath : String := "charts/individual_points_line_chart.png"

/-- The data path `main` uses (line 126). -/
def dataPath : String := "charts/point_tracking_data.json"

/-- The orchestrator `main` (lines 110-131): synthesize, create the output
directory, render the chart, export the data — in that order, with no error
handling anywhere. -/
def main_run (env : Env) (fs : FS) : StepRes :=
  andThen (makedirs env "charts" fs) (fun fs1 =>
  andThen (create_line_chart env generate_sample_data chartPath fs1) (fun fs2 =>
  save_data_as_json env generate_sample_data dataPath fs2))

/-- Environment in which every primitive operation succeeds. -/
def envOk : Env := ⟨fun _ => false⟩

/-- Environment in which exactly the chart save fails. -/
def envFailSavefig : Env :=
  ⟨fun k => match k with
    | OpKind.savefig => true
    | _ => false⟩

/-- An empty filesystem: no directories, no files. -/
def emptyFS : FS := ⟨[], []⟩

/-- A filesystem in which only the `charts` directory exists. -/
def fsWithCharts : FS := ⟨["charts"], []⟩

/-- Strict lexicographic order on character lists, used to compare the
fixed-width ISO date strings (for dates of one year this coincides with
chronological order). -/
def lexLt : List Char → List Char → Bool
  | [], [] => false
  | [], _ :: _ => true
  | _ :: _, [] => false
  | a :: as, b :: bs => if a < b then true else if a = b then lexLt as bs else false

/-- Adjacent elements of the list are strictly increasing under `lexLt`. -/
def strictlyIncreasing : List (List Char) → Bool
  | [] => true
  | [_] => true
  | a :: b :: rest => lexLt a b && strictlyIncreasing (b :: rest)

/-! ## Helper lemmas -/

/-- Inserting a directory (if missing) makes it present. -/
theorem memStr_insert (d : String) (l : List String) :
    memStr d (if memStr d l then l else d :: l) = true := by
  by_cases h : memStr d l
  · simp [h]
  · simp [h, memStr]

/-- The image path lives in the `charts` directory. -/
theorem parentDir_chartPath : parentDir chartPath = "charts" := rfl

/-- The data path lives in the `charts` directory. -/
theorem parentDir_dataPath : parentDir dataPath = "charts" := rfl

/-! ## Claim theorems -/

/-- C1: `generate_sample_data`, a pure function of constants with no input,
always returns the same sequence (in this embedding it is a closed term, so
every use is the identical value): exactly 60 records, 5 individuals times 12
weeks, the concatenation of the individuals' 12-record runs in table order
Alice, Bob, Charlie, Diana, Eve — record `12*i + w` belongs to individual `i`
and week `w`. -/
theorem sample_data_sixty_records_ordered :
    generate_sample_data.length = 60 ∧
    generate_sample_data = (individuals.map personRecords).flatten ∧
    (∀ i : Fin 5, ∀ w : Fin 12,
      (generate_sample_data.getD (12 * i.val + w.val) default).individual
          = (individuals.getD i.val default).name ∧
      (generate_sample_data.getD (12 * i.val + w.val) default).week = weekLabel w.val) ∧
    individuals.map Individual.name = ["Alice", "Bob", "Charlie", "Diana", "Eve"] := by
  refine ⟨by decide, rfl, by decide, by decide⟩

/-- C2: for every individual and every week `1..11` the cumulative points
strictly exceed the previous week's, and every per-week increment the formulas
produce for weeks `0..11` is positive. -/
theorem cumulative_points_strictly_increasing :
    (∀ i : Fin 5, ∀ w : Fin 11,
      (generate_sample_data.getD (12 * i.val + w.val) default).cumulative_points <
        (generate_sample_data.getD (12 * i.val + (w.val + 1)) default).cumulative_points) ∧
    (∀ i : Fin 5, ∀ w : Fin 12,
      0 < increment (individuals.getD i.val default).name w.val) := by
  exact ⟨by decide, by decide⟩

/-- C3: Alice's week-0 record has cumulative points 15, her week-1 record 37,
and Bob's week-0 record (position 12, the start of his run) 12. -/
theorem first_records_concrete_values :
    (generate_sample_data.getD 0 default).individual = "Alice" ∧
    (generate_sample_data.getD 0 default).cumulative_points = 15 ∧
    (generate_sample_data.getD 1 default).individual = "Alice" ∧
    (generate_sample_data.getD 1 default).cumulative_points = 37 ∧
    (generate_sample_data.getD 12 default).individual = "Bob" ∧
    (generate_sample_data.getD 12 default).cumulative_points = 12 := by
  decide

/-- C6: within each individual's 12-record run the week labels are pairwise
distinct, and the date strings are strictly increasing in record order (the
dates are fixed-width ISO strings of one year, so `lexLt`, character-wise
lexicographic order, is chronological order). -/
theorem week_labels_unique_dates_increasing :
    ∀ i : Fin 5,
      ((personRecords (individuals.getD i.val default)).map Record.week).Nodup ∧
      strictlyIncreasing
        ((personRecords (individuals.getD i.val default)).map (fun r => r.date.data)) = true := by
  decide

/-- C10: the name-to-color table is the fixed constant list Alice `#FF6B6B`,
Bob `#4ECDC4`, Charlie `#45B7D1`, Diana `#FFA726`, Eve `#AB47BC`, and all 12
records of individual `i` carry that individual's color. -/
theorem colors_fixed_per_individual :
    individuals = [⟨"Alice", "#FF6B6B"⟩, ⟨"Bob", "#4ECDC4"⟩, ⟨"Charlie", "#45B7D1"⟩,
                   ⟨"Diana", "#FFA726"⟩, ⟨"Eve", "#AB47BC"⟩] ∧
    (∀ i : Fin 5, ∀ w : Fin 12,
      (generate_sample_data.getD (12 * i.val + w.val) default).color
          = (individuals.getD i.val default).color) := by
  exact ⟨rfl, by decide⟩

set_option maxRecDepth 16000 in
/-- C4: round-trip through the exporter — re-parsing the exact
`json.dump(data, f, indent=2)` text that `save_data_as_json` writes for the
synthesized sequence yields the identical sequence of (individual, color,
week, date, cumulative_points) records. -/
theorem export_roundtrip_identity :
    parseRecords (serRecords generate_sample_data) = some generate_sample_data := by
  rfl

set_option maxRecDepth 16000 in
/-- C5: the exported text parses as a JSON array of exactly the 60 objects
`recordToJson r`, each carrying exactly the five keys `individual`, `color`,
`week`, `date`, `cumulative_points` with string values for the first four and
an integer for the last; moreover every record's week label has the `YYYY-Www`
shape, its color is a `#`-prefixed six-hex-digit string, and its date is the
ISO rendering of 2024-01-01 plus its week index (`i % 12` in the flat,
individual-major sequence) weeks. -/
theorem export_record_fields_wellformed :
    parseJsonText (serRecords generate_sample_data)
        = some (Json.arr (generate_sample_data.map recordToJson)) ∧
    (∀ i : Fin 60,
      jsonKeys (recordToJson (generate_sample_data.getD i.val default))
          = ["individual", "color", "week", "date", "cumulative_points"] ∧
      weekFormatOk (generate_sample_data.getD i.val default).week = true ∧
      hexColorOk (generate_sample_data.getD i.val default).color = true ∧
      (generate_sample_data.getD i.val default).date = isoDate (i.val % 12)) := by
  exact ⟨by rfl, by decide⟩

/-- C7 counterexample: on a filesystem where the output path's directory
`charts` does not exist, the renderer does not create it and does not succeed:
`plt.savefig` raises `FileNotFoundError`, and the filesystem still contains no
directory at all. -/
theorem renderer_does_not_create_dirs_cex :
    (create_line_chart envOk generate_sample_data chartPath emptyFS).1
        = some "savefig: FileNotFoundError" ∧
    ((create_line_chart envOk generate_sample_data chartPath emptyFS).2).dirs = [] ∧
    ((create_line_chart envOk generate_sample_data chartPath emptyFS).2).files = [] := by
  exact ⟨rfl, rfl, rfl⟩

/-- C7 (amended): the renderer never creates directories — its post-state has
exactly the directories of its pre-state; it writes the image file to the
output path only when that path's parent directory already exists (and the
save itself does not fail), and in the program it is `main` that creates the
`charts` directory, with `os.makedirs`, before invoking the renderer. -/
theorem renderer_requires_existing_dir :
    (∀ env data path fs, ((create_line_chart env data path fs).2).dirs = fs.dirs) ∧
    (∀ env data path fs, env.fails OpKind.savefig = false →
      dirExists fs (parentDir path) = true →
      create_line_chart env data path fs
          = (none, writeF fs path (FileContent.image (mkChart data)))) := by
  constructor
  · intro env data path fs
    unfold create_line_chart savefig
    by_cases h1 : env.fails OpKind.savefig
    · simp [h1]
    · by_cases h2 : dirExists fs (parentDir path)
      · simp [h1, h2, writeF]
      · simp [h1, h2]
  · intro env data path fs h1 h2
    simp [create_line_chart, savefig, h1, h2]

/-- C7 witness: with the `charts` directory present and no I/O fault, the
renderer writes the chart image for the synthesized data. -/
theorem renderer_requires_existing_dir_witness :
    create_line_chart envOk generate_sample_data chartPath fsWithCharts
        = (none, writeF fsWithCharts chartPath
            (FileContent.image (mkChart generate_sample_data))) :=
  renderer_requires_existing_dir.2 envOk generate_sample_data chartPath fsWithCharts rfl rfl

/-- C8: the run is all-or-nothing — `main` succeeds exactly when none of the
three primitive operations (directory creation, chart save, data-file write)
fails, and in particular when the chart save fails the JSON data file is never
written: the run aborts with an error and the data path maps to no file. -/
theorem run_all_or_nothing :
    ∀ env fs,
      ((main_run env fs).1 = none ↔
        env.fails OpKind.makedirs = false ∧ env.fails OpKind.savefig = false ∧
          env.fails OpKind.writeFile = false) ∧
      (env.fails OpKind.savefig = true → lookupFile fs dataPath = none →
        (main_run env fs).1.isSome = true ∧
          lookupFile (main_run env fs).2 dataPath = none) := by
  intro env fs
  constructor
  · by_cases h1 : env.fails OpKind.makedirs
    · simp [main_run, andThen, makedirs, h1]
    · by_cases h2 : env.fails OpKind.savefig
      · simp [main_run, andThen, makedirs, create_line_chart, savefig, h1, h2]
      · by_cases h3 : env.fails OpKind.writeFile
        · simp [main_run, andThen, makedirs, create_line_chart, savefig,
                save_data_as_json, openWrite, dirExists, parentDir_chartPath,
                memStr_insert, writeF, h1, h2, h3]
        · simp [main_run, andThen, makedirs, create_line_chart, savefig,
                save_data_as_json, openWrite, dirExists, parentDir_chartPath,
                parentDir_dataPath, memStr_insert, writeF, h1, h2, h3]
  · intro h2 hnone
    by_cases h1 : env.fails OpKind.makedirs
    · constructor
      · simp [main_run, andThen, makedirs, h1]
      · simp [main_run, andThen, makedirs, h1, lookupFile]
        simpa [lookupFile] using hnone
    · constructor
      · simp [main_run, andThen, makedirs, create_line_chart, savefig, h1, h2]
      · simp [main_run, andThen, makedirs, create_line_chart, savefig, h1, h2, lookupFile]
        simpa [lookupFile] using hnone

/-- C8 witness: in an environment where exactly the chart save fails, starting
from an empty filesystem, the run aborts and the JSON data file is absent. -/
theorem run_all_or_nothing_witness :
    (main_run envFailSavefig emptyFS).1.isSome = true ∧
      lookupFile (main_run envFailSavefig emptyFS).2 dataPath = none :=
  (run_all_or_nothing envFailSavefig emptyFS).2 rfl rfl

/-- C9: on an empty record sequence the grouping loop produces no groups and
the plotting loop no series, nothing is raised, and the renderer still writes
an image of the axes-only chart — title, axis labels, grid, empty legend, no
series — to the output path (parent directory existing and the save not
faulting). -/
theorem empty_input_renders_axes_only_chart :
    groupData [] = [] ∧
    mkChart [] = { series := [], title := "Individual Point Tracking Over Time",
                   xlabel := "Time (Weeks)", ylabel := "Cumulative Points",
                   grid := true, legend := [] } ∧
    (∀ env path fs, env.fails OpKind.savefig = false →
      dirExists fs (parentDir path) = true →
      create_line_chart env [] path fs
          = (none, writeF fs path (FileContent.image (mkChart [])))) := by
  refine ⟨rfl, rfl, ?_⟩
  intro env path fs h1 h2
  simp [create_line_chart, savefig, h1, h2]

/-- C9 witness: rendering the empty sequence into an existing directory
succeeds and writes the axes-only chart image. -/
theorem empty_input_renders_axes_only_chart_witness :
    create_line_chart envOk [] "charts/empty.png" fsWithCharts
        = (none, writeF fsWithCharts "charts/empty.png"
            (FileContent.image (mkChart []))) :=
  empty_input_renders_axes_only_chart.2.2 envOk "charts/empty.png" fsWithCharts rfl rfl
